import Mathlib

/-!
Shallow embedding of `comment_removal/utils/mutils.py`.

The file models the data handled by the script (numpy matrices, the
on-disk cache of encoded inputs, pickled classifiers, the predictions
CSV) and translates each function of `mutils.py` into a pure Lean
function.  File-system effects become explicit association lists mapping
paths to contents; exceptions become `Except`/`Option`; calls into
libraries external to the repository (sklearn, numpy, pandas) and into
repository modules whose sources are not available are abstracted as
parameters or modelled from the spec, as noted on each definition.
-/

namespace CommentRemoval

/-- A numpy matrix, abstracted to its shape and (integer-abstracted)
entries.  Shapes are what the claims about encoded matrices refer to. -/
structure Mat where
  rows : Nat
  cols : Nat
  entries : List (List Int)
  deriving Repr, DecidableEq

/-- A file system holding values of type `α` at string paths, newest
entry first (so writing is `cons`). -/
def lookupFile {α : Type} : List (String × α) → String → Option α
  | [], _ => none
  | (k, v) :: rest, p => if k = p then some v else lookupFile rest p

/-- File system of cached `.npy` matrices. -/
abbrev NpyFS := List (String × Mat)

/-- The `args` namespace object produced by the argument parser; only
the fields `mutils.py` reads are modelled. -/
structure Args where
  workdir : String
  encoder_type : String
  clf_save_name : String
  clf_type : String
  parallel : Bool
  test_file : String
  predictions_file : String
  deriving Repr, DecidableEq

/-- Python exceptions that the modelled code can raise. -/
inductive Err
  | nameError (v : String)
  | encodeError (msg : String)
  | loadError (path : String)
  | typeError (msg : String)
  | indexError
  deriving Repr, DecidableEq

/-- The hyper-parameters of the sklearn classifier constructed by
`make_classifier_and_predict`; one constructor per dispatch branch,
recording exactly the arguments passed in the source. -/
inductive Clf
  | randomForest (max_depth n_estimators max_features n_jobs random_state : Nat)
      (verbose : Bool)
  | svc (gamma : String) (random_state : Nat) (verbose : Bool)
  | mlp (hidden1 hidden2 : Nat) (activation : String) (early_stopping : Bool)
      (random_state : Nat)
  deriving Repr, DecidableEq

/-- A classifier after `clf.fit(x_train, y_train)`: the constructed
classifier together with the data it was fit on. -/
structure FittedClf where
  base : Clf
  fitX : Mat
  fitY : List Bool
  deriving Repr, DecidableEq

/-- File system of pickled classifiers (`joblib.dump`/`joblib.load`). -/
abbrev PklFS := List (String × FittedClf)

/-- The path `save_model` writes to:
`os.path.join(args.workdir, "{}_{}.pkl".format(args.clf_save_name, args.clf_type))`. -/
def save_model_path (args : Args) : String :=
  args.workdir ++ "/" ++ args.clf_save_name ++ "_" ++ args.clf_type ++ ".pkl"

/-- The path `load_model` reads from, computed by the same expression as
in `save_model` (the source repeats the expression in each function). -/
def load_model_path (args : Args) : String :=
  args.workdir ++ "/" ++ args.clf_save_name ++ "_" ++ args.clf_type ++ ".pkl"

/-- Model of `save_model(args, clf)`: `joblib.dump` of the classifier at the save
path, modelled as prepending to the pickle file system. -/
def save_model (args : Args) (clf : FittedClf) (pfs : PklFS) : PklFS :=
  (save_model_path args, clf) :: pfs

/-- Model of `load_model(args)`: `joblib.load` from the save path. -/
def load_model (args : Args) (pfs : PklFS) : Option FittedClf :=
  lookupFile pfs (load_model_path args)

/-- Modelled from the spec: the repository module `comment_removal.encoders`
(`LaserEncoder`, `LSIEncoder`) is not under `src/`.  The spec describes the
encoders as pluggable components converting raw text into a fixed-width
numeric vector (a sentence-embedding model and a topic-model-based
encoder); they are modelled as abstract encoding functions that either
return an encoded matrix or raise.
`laserEncode a c p` stands for `LaserEncoder(a).encode(c, parallel=p)` and
`lsiFitTransform k c` for `LSIEncoder(keep_n=k).fit_transform(c)`. -/
structure ExtEncoders where
  laserEncode : Args → List String → Bool → Except Err Mat
  lsiFitTransform : Nat → List String → Except Err Mat

/-- The body of the `try` block of `encode_text`: dispatch on
`args.encoder_type`.  When the type is neither `'LASER'` nor `'LSI'`,
the local `encoded_comments` is never assigned and the subsequent
`encoded_comments.shape` raises `NameError`. -/
def encode_dispatch (ext : ExtEncoders) (args : Args) (comments : List String) :
    Except Err Mat :=
  if args.encoder_type = "LASER" then
    ext.laserEncode args comments args.parallel
  else if args.encoder_type = "LSI" then
    ext.lsiFitTransform 10000 comments
  else
    Except.error (Err.nameError "encoded_comments")

/-- Result of `encode_text`: the returned value or raised exception,
together with the messages logged. -/
structure TextEncResult where
  result : Except Err Mat
  log : List String
  deriving Repr

/-- Model of `encode_text(args, comments)`: dispatches to the selected encoder;
on success logs the encoded shape and returns the matrix, on any
exception logs an error and re-raises it.  (The `@timeit` decorator only
measures wall time and is dropped.) -/
def encode_text (ext : ExtEncoders) (args : Args) (comments : List String) :
    TextEncResult :=
  match encode_dispatch ext args comments with
  | Except.ok m =>
      { result := Except.ok m
        log := ["Comments encoded: (" ++ toString m.rows ++ ", " ++
                toString m.cols ++ ")"] }
  | Except.error e =>
      { result := Except.error e
        log := ["Error while encoding inputs!"] }

/-- Model of `np.load(path)`: returns the matrix stored at the path or raises. -/
def np_load (fs : NpyFS) (path : String) : Except Err Mat :=
  match lookupFile fs path with
  | some m => Except.ok m
  | none => Except.error (Err.loadError path)

/-- Result of `load_encoded_inputs`: the returned pair, or `none` when an
exception was caught (the function then falls off the end and returns
Python `None`), together with the messages logged. -/
structure LoadResult where
  result : Option (Mat × Mat)
  log : List String
  deriving Repr

/-- Model of `load_encoded_inputs(training_mat_path, test_mat_path)`: loads the
two matrices inside a `try`; any exception is logged and swallowed, in
which case the function returns `None`. -/
def load_encoded_inputs (fs : NpyFS) (training_mat_path test_mat_path : String) :
    LoadResult :=
  match np_load fs training_mat_path with
  | Except.error _ =>
      { result := none
        log := ["Loading encoded training matrix from: " ++ training_mat_path,
                "Error loading encoded inputs as numpy file"] }
  | Except.ok a =>
      match np_load fs test_mat_path with
      | Except.error _ =>
          { result := none
            log := ["Loading encoded training matrix from: " ++ training_mat_path,
                    "Loading encoded test matrix from: " ++ test_mat_path,
                    "Error loading encoded inputs as numpy file"] }
      | Except.ok b =>
          { result := some (a, b)
            log := ["Loading encoded training matrix from: " ++ training_mat_path,
                    "Loading encoded test matrix from: " ++ test_mat_path] }

/-- The `data_loader` passed to `encode_or_load_data`: its `get` method
queried for the `'BODY'` and `'REMOVED'` columns of the train and test
splits. -/
structure DataLoader where
  bodyTrain : List String
  bodyTest : List String
  removedTrain : List Bool
  removedTest : List Bool

/-- The value held by `encoded_training_inputs` / `encoded_test_inputs`
at the return of `encode_or_load_data`: either the Python empty list
`[]` they are initialised to, or an encoded/loaded numpy matrix. -/
inductive EncVal
  | emptyList
  | mat (m : Mat)
  deriving Repr, DecidableEq

/-- The cache path of the training matrix:
`os.path.join(args.workdir, "{}_{}-comments.npy".format('training', args.encoder_type))`. -/
def trainMatPath (args : Args) : String :=
  args.workdir ++ "/" ++ "training" ++ "_" ++ args.encoder_type ++ "-comments.npy"

/-- The cache path of the test matrix:
`os.path.join(args.workdir, "{}_{}-comments.npy".format('test', args.encoder_type))`. -/
def testMatPath (args : Args) : String :=
  args.workdir ++ "/" ++ "test" ++ "_" ++ args.encoder_type ++ "-comments.npy"

/-- Everything observable at the return of `encode_or_load_data`: the
returned `((train_inputs, train_outputs), (test_inputs, test_outputs))`,
the file system after any `np.save`, how many times `encode_text` was
called on each split, how many times `load_encoded_inputs` was called,
and the messages logged. -/
structure EncodeOutcome where
  trainInputs : EncVal
  trainOutputs : List Bool
  testInputs : EncVal
  testOutputs : List Bool
  fs : NpyFS
  encodeTrainCalls : Nat
  encodeTestCalls : Nat
  loadCalls : Nat
  log : List String

/-- Model of `encode_or_load_data(args, data_loader)`.  When either cache file is
missing, each missing split is encoded inside a `try` (exceptions are
logged and swallowed, leaving the initial `[]`), and saved with
`np.save` only when encoding succeeded.  When both cache files exist,
both matrices are loaded via `load_encoded_inputs`; if that returned
`None`, the tuple unpacking raises `TypeError`.  The label outputs are
read from the data loader in every case. -/
def encode_or_load_data (ext : ExtEncoders) (args : Args) (dl : DataLoader)
    (fs : NpyFS) : Except Err EncodeOutcome :=
  let trainPath := trainMatPath args
  let testPath := testMatPath args
  if (lookupFile fs trainPath).isNone || (lookupFile fs testPath).isNone then
    let trainStep : EncVal × NpyFS × Nat × List String :=
      if (lookupFile fs trainPath).isNone then
        let r := encode_text ext args dl.bodyTrain
        match r.result with
        | Except.ok m =>
            (EncVal.mat m, (trainPath, m) :: fs, 1,
             "Encoding train inputs" :: r.log)
        | Except.error _ =>
            (EncVal.emptyList, fs, 1,
             "Encoding train inputs" :: r.log ++
               ["Error while encoding train dataset"])
      else (EncVal.emptyList, fs, 0, [])
    let fs1 := trainStep.2.1
    let testStep : EncVal × NpyFS × Nat × List String :=
      if (lookupFile fs1 testPath).isNone then
        let r := encode_text ext args dl.bodyTest
        match r.result with
        | Except.ok m =>
            (EncVal.mat m, (testPath, m) :: fs1, 1,
             "Encoding test inputs" :: r.log)
        | Except.error _ =>
            (EncVal.emptyList, fs1, 1,
             "Encoding test inputs" :: r.log ++
               ["Error while encoding test dataset"])
      else (EncVal.emptyList, fs1, 0, [])
    Except.ok
      { trainInputs := trainStep.1
        trainOutputs := dl.removedTrain
        testInputs := testStep.1
        testOutputs := dl.removedTest
        fs := testStep.2.1
        encodeTrainCalls := trainStep.2.2.1
        encodeTestCalls := testStep.2.2.1
        loadCalls := 0
        log := trainStep.2.2.2 ++ testStep.2.2.2 }
  else
    let lr := load_encoded_inputs fs trainPath testPath
    match lr.result with
    | none => Except.error (Err.typeError "cannot unpack non-iterable NoneType object")
    | some (a, b) =>
        Except.ok
          { trainInputs := EncVal.mat a
            trainOutputs := dl.removedTrain
            testInputs := EncVal.mat b
            testOutputs := dl.removedTest
            fs := fs
            encodeTrainCalls := 0
            encodeTestCalls := 0
            loadCalls := 1
            log := "Loading train & test inputs from file" :: lr.log }

/-- The externally supplied sklearn behaviour of a fitted classifier
(`predict`, `score`, `predict_proba`); abstract, as sklearn is a
third-party library. -/
structure ClfOps where
  predict : FittedClf → Mat → List Bool
  score : FittedClf → Mat → List Bool → Rat
  predictProba : FittedClf → Mat → List (Rat × Rat)

/-- The observable steps taken by `make_classifier_and_predict` and
`eval_model`, in the order they execute. -/
inductive Event
  | fitted
  | savedModel
  | predicted
  | scored
  | printedReport
  | rocComputed
  | savedPredictions
  deriving Repr, DecidableEq

/-- Result of `eval_model`: the predictions and score computed, and the
steps it performed in order. -/
structure EvalResult where
  yPred : List Bool
  testScore : Rat
  events : List Event
  deriving Repr, DecidableEq

/-- Model of `eval_model(args, clf, x_test, y_test, target_names)`: predicts on
the test set, computes the score, prints the classification report,
computes ROC metrics, and finally saves the predictions as csv. -/
def eval_model (ops : ClfOps) (clf : FittedClf) (xTest : Mat) (yTest : List Bool)
    (target_names : List String) : EvalResult :=
  let yPred := ops.predict clf xTest
  let s := ops.score clf xTest yTest
  { yPred := yPred
    testScore := s
    events := [Event.predicted, Event.scored, Event.printedReport,
               Event.rocComputed, Event.savedPredictions] }

/-- Result of `make_classifier_and_predict`: the fitted classifier it
returns, the pickle file system after `save_model`, the result of
`eval_model`, and the steps performed in order. -/
structure MakeResult where
  clf : FittedClf
  pfs : PklFS
  evalr : EvalResult
  events : List Event

/-- Model of `make_classifier_and_predict(args, train_set, test_set, target_names,
random_seed, clf_name)`: constructs the classifier selected by
`clf_name` (`RandomForestClassifier`, `SVC` or `MLPClassifier` with the
hyper-parameters of the source); for any other name the local `clf` is
never assigned and `clf.fit` raises an unbound-name error.  Otherwise it
fits the classifier on the training set, saves it with `save_model`,
evaluates it with `eval_model` and returns it. -/
def make_classifier_and_predict (ops : ClfOps) (args : Args)
    (train_set test_set : Mat × List Bool) (target_names : List String)
    (random_seed : Nat) (clf_name : String) (pfs : PklFS) :
    Except Err MakeResult :=
  let x_train := train_set.1
  let y_train := train_set.2
  let x_test := test_set.1
  let y_test := test_set.2
  let clf? : Option Clf :=
    if clf_name = "randomforest" then
      some (Clf.randomForest 100 1000 100 8 random_seed true)
    else if clf_name = "svc" then
      some (Clf.svc "auto" random_seed true)
    else if clf_name = "mlp" then
      some (Clf.mlp 512 128 "relu" true random_seed)
    else none
  match clf? with
  | none => Except.error (Err.nameError "clf")
  | some c =>
      let fitted : FittedClf := { base := c, fitX := x_train, fitY := y_train }
      let pfs1 := save_model args fitted pfs
      let ev := eval_model ops fitted x_test y_test target_names
      Except.ok
        { clf := fitted
          pfs := pfs1
          evalr := ev
          events := Event.fitted :: Event.savedModel :: ev.events }

/-- A row of the gold test CSV restricted to the `BODY` and `REMOVED`
columns, as `read_csv(args.test_file)[['BODY', 'REMOVED']]` yields it. -/
structure GoldRow where
  body : String
  removed : Bool
  deriving Repr, DecidableEq

/-- The pandas statement `pred.iloc[i]['Prediction'] = y_lbl` where
`'Prediction'` is not a column of `pred`: `pred.iloc[i]` raises
`IndexError` when `i` is out of range and otherwise returns a fresh
Series copy of row `i`; assigning the new key `'Prediction'` mutates
only that temporary copy, so the frame is returned unchanged. -/
def iloc_set_new_col (df : List GoldRow) (i : Nat) : Except Err (List GoldRow) :=
  if i < df.length then Except.ok df else Except.error Err.indexError

/-- The loop `for i, y_lbl in enumerate(y_pred): pred.iloc[i]['Prediction'] = y_lbl`. -/
def pred_assign_loop (df : List GoldRow) (yPred : List Bool) (i : Nat) :
    Except Err (List GoldRow) :=
  match yPred with
  | [] => Except.ok df
  | _ :: rest =>
      match iloc_set_new_col df i with
      | Except.error e => Except.error e
      | Except.ok df1 => pred_assign_loop df1 rest (i + 1)

/-- Python `str` of a bool, as pandas writes bool cells to csv. -/
def pyBoolStr (b : Bool) : String :=
  if b then "True" else "False"

/-- One line of `pred.to_csv(..., sep='\t', index=True, index_label='ID')`:
the row index, then the `BODY` and `REMOVED` cells, tab-separated. -/
def to_csv_line (i : Nat) (r : GoldRow) : String :=
  toString i ++ "\t" ++ r.body ++ "\t" ++ pyBoolStr r.removed

/-- The lines of the csv written by `to_csv`: a header naming the index
label `ID` and the columns of the frame, then one line per row. -/
def to_csv_lines (df : List GoldRow) : List String :=
  ("ID" ++ "\t" ++ "BODY" ++ "\t" ++ "REMOVED") ::
    (List.range df.length).zipWith to_csv_line df

/-- File system of written text files, one list of lines per path. -/
abbrev CsvFS := List (String × List String)

/-- Model of `save_predictions(args, y_pred)`.  `gold` stands for
`read_csv(args.test_file)[['BODY', 'REMOVED']]` (the loader module
`comment_removal.utils.loaders` is not under `src/`; modelled from the
spec as reading the tabular test dataset's text and label columns).
The function deep-copies the gold frame, runs the chained-assignment
loop over the predictions, and writes the frame tab-separated to
`args.predictions_file` with the index under the label `ID`. -/
def save_predictions (args : Args) (yPred : List Bool) (gold : List GoldRow)
    (out : CsvFS) : Except Err CsvFS :=
  let pred := gold
  match pred_assign_loop pred yPred 0 with
  | Except.error e => Except.error e
  | Except.ok pred1 =>
      Except.ok ((args.predictions_file, to_csv_lines pred1) :: out)

/-- The value a missing split's variable holds after its encode branch:
the encoded matrix on success, the initial Python `[]` on a swallowed
exception. -/
def encodeStepVal (r : TextEncResult) : EncVal :=
  match r.result with
  | Except.ok m => EncVal.mat m
  | Except.error _ => EncVal.emptyList

/-- The file system after a missing split's encode branch: `np.save`
runs only in the `else` clause, i.e. only when encoding succeeded. -/
def encodeStepFS (path : String) (r : TextEncResult) (fs : NpyFS) : NpyFS :=
  match r.result with
  | Except.ok m => (path, m) :: fs
  | Except.error _ => fs

/-- The log of a missing split's encode branch. -/
def encodeStepLog (intro errMsg : String) (r : TextEncResult) : List String :=
  match r.result with
  | Except.ok _ => intro :: r.log
  | Except.error _ => intro :: r.log ++ [errMsg]

/-! Sample fixtures used to instantiate the theorems below on concrete
inputs. -/

/-- Sample argument record (LASER encoder). -/
def argsS : Args :=
  { workdir := "wd", encoder_type := "LASER", clf_save_name := "clf",
    clf_type := "rf", parallel := false, test_file := "test.csv",
    predictions_file := "preds.tsv" }

/-- Sample argument record for the LSI encoder. -/
def argsLsi : Args := { argsS with encoder_type := "LSI" }

/-- Sample argument record with an encoder type outside the dispatch. -/
def argsFoo : Args := { argsS with encoder_type := "BERT" }

/-- A sample 2 × 3 matrix. -/
def matA : Mat := ⟨2, 3, [[1, 2, 3], [4, 5, 6]]⟩

/-- A sample 2 × 5 matrix. -/
def matB : Mat := ⟨2, 5, [[0, 0, 0, 0, 0], [1, 1, 1, 1, 1]]⟩

/-- Sample sklearn behaviour for a fitted classifier. -/
def opsS : ClfOps := ⟨fun _ _ => [], fun _ _ _ => 0, fun _ _ => []⟩

/-- Sample external encoders that always succeed. -/
def extOk : ExtEncoders := ⟨fun _ _ _ => Except.ok matA, fun _ _ => Except.ok matB⟩

/-- Sample external encoders that always raise. -/
def extFail : ExtEncoders :=
  ⟨fun _ _ _ => Except.error (Err.encodeError "laser failed"),
   fun _ _ => Except.error (Err.encodeError "lsi failed")⟩

/-- Sample data loader. -/
def dlS : DataLoader := ⟨["train body"], ["test body"], [true], [false]⟩

/-- The random-forest classifier fitted in the concrete witness run. -/
def fittedRF : FittedClf := ⟨Clf.randomForest 100 1000 100 8 0 true, matA, [true, false]⟩

/-- C10: `save_model` and `load_model` compute the same path
`{workdir}/{clf_save_name}_{clf_type}.pkl`, and loading right after
saving returns the saved classifier. -/
theorem save_load_model_roundtrip (args : Args) (clf : FittedClf) (pfs : PklFS) :
    load_model args (save_model args clf pfs) = some clf ∧
    load_model_path args = save_model_path args ∧
    save_model_path args =
      args.workdir ++ "/" ++ args.clf_save_name ++ "_" ++ args.clf_type ++ ".pkl" := by
  refine ⟨?_, rfl, rfl⟩
  simp [load_model, save_model, lookupFile, load_model_path, save_model_path]

/-- C3: `make_classifier_and_predict` dispatches on `clf_name`, building
a random forest for `"randomforest"`, an SVM for `"svc"` and a small
neural network for `"mlp"`, and the classifier it fits, saves,
evaluates and returns is exactly the one selected by that name. -/
theorem make_classifier_dispatch (ops : ClfOps) (args : Args)
    (x_train x_test : Mat) (y_train y_test : List Bool)
    (tn : List String) (seed : Nat) (pfs : PklFS) :
    make_classifier_and_predict ops args (x_train, y_train) (x_test, y_test) tn seed
        "randomforest" pfs =
      Except.ok
        { clf := ⟨Clf.randomForest 100 1000 100 8 seed true, x_train, y_train⟩
          pfs := save_model args
            ⟨Clf.randomForest 100 1000 100 8 seed true, x_train, y_train⟩ pfs
          evalr := eval_model ops
            ⟨Clf.randomForest 100 1000 100 8 seed true, x_train, y_train⟩ x_test y_test tn
          events := [Event.fitted, Event.savedModel, Event.predicted, Event.scored,
                     Event.printedReport, Event.rocComputed, Event.savedPredictions] } ∧
    make_classifier_and_predict ops args (x_train, y_train) (x_test, y_test) tn seed
        "svc" pfs =
      Except.ok
        { clf := ⟨Clf.svc "auto" seed true, x_train, y_train⟩
          pfs := save_model args ⟨Clf.svc "auto" seed true, x_train, y_train⟩ pfs
          evalr := eval_model ops ⟨Clf.svc "auto" seed true, x_train, y_train⟩
            x_test y_test tn
          events := [Event.fitted, Event.savedModel, Event.predicted, Event.scored,
                     Event.printedReport, Event.rocComputed, Event.savedPredictions] } ∧
    make_classifier_and_predict ops args (x_train, y_train) (x_test, y_test) tn seed
        "mlp" pfs =
      Except.ok
        { clf := ⟨Clf.mlp 512 128 "relu" true seed, x_train, y_train⟩
          pfs := save_model args ⟨Clf.mlp 512 128 "relu" true seed, x_train, y_train⟩ pfs
          evalr := eval_model ops ⟨Clf.mlp 512 128 "relu" true seed, x_train, y_train⟩
            x_test y_test tn
          events := [Event.fitted, Event.savedModel, Event.predicted, Event.scored,
                     Event.printedReport, Event.rocComputed, Event.savedPredictions] } :=
  ⟨rfl, rfl, rfl⟩

/-- C9: for any `clf_name` outside the three dispatch branches, the
local `clf` is never assigned and `clf.fit` fails with an unbound-name
error; no fallback or explicit invalid-name report exists. -/
theorem make_classifier_unknown_name (ops : ClfOps) (args : Args)
    (train_set test_set : Mat × List Bool) (tn : List String) (seed : Nat)
    (pfs : PklFS) (clf_name : String)
    (h1 : clf_name ≠ "randomforest") (h2 : clf_name ≠ "svc") (h3 : clf_name ≠ "mlp") :
    make_classifier_and_predict ops args train_set test_set tn seed clf_name pfs =
      Except.error (Err.nameError "clf") := by
  unfold make_classifier_and_predict
  simp [h1, h2, h3]

/-- Witness for C9 at the concrete name `"adaboost"`. -/
theorem make_classifier_unknown_name_witness :
    ("adaboost" ≠ "randomforest" ∧ "adaboost" ≠ "svc" ∧ "adaboost" ≠ "mlp") ∧
    make_classifier_and_predict opsS argsS (matA, [true, false]) (matB, [false, true])
        ["kept", "removed"] 0 "adaboost" [] = Except.error (Err.nameError "clf") :=
  ⟨⟨by decide, by decide, by decide⟩,
   make_classifier_unknown_name opsS argsS (matA, [true, false]) (matB, [false, true])
     ["kept", "removed"] 0 [] "adaboost" (by decide) (by decide) (by decide)⟩

/-- C5: `encode_text` selects between exactly the two encoders by the
string `args.encoder_type`: `'LASER'` gives the LASER encoder's result,
`'LSI'` the LSI encoder's result, and any other name assigns neither and
raises. -/
theorem encode_text_two_encoders (ext : ExtEncoders) (args : Args)
    (comments : List String) :
    (args.encoder_type = "LASER" →
      (encode_text ext args comments).result =
        ext.laserEncode args comments args.parallel) ∧
    (args.encoder_type = "LSI" →
      (encode_text ext args comments).result = ext.lsiFitTransform 10000 comments) ∧
    (args.encoder_type ≠ "LASER" → args.encoder_type ≠ "LSI" →
      (encode_text ext args comments).result =
        Except.error (Err.nameError "encoded_comments")) := by
  refine ⟨fun h => ?_, fun h => ?_, fun h1 h2 => ?_⟩
  · simp only [encode_text, encode_dispatch, h, if_pos]
    cases ext.laserEncode args comments args.parallel <;> rfl
  · simp only [encode_text, encode_dispatch, h]
    norm_num
    cases ext.lsiFitTransform 10000 comments <;> rfl
  · simp only [encode_text, encode_dispatch, if_neg h1, if_neg h2]

/-- Witness for C5 at concrete encoder types. -/
theorem encode_text_two_encoders_witness :
    (argsS.encoder_type = "LASER" ∧
      (encode_text extOk argsS ["c"]).result =
        extOk.laserEncode argsS ["c"] argsS.parallel) ∧
    (argsLsi.encoder_type = "LSI" ∧
      (encode_text extOk argsLsi ["c"]).result = extOk.lsiFitTransform 10000 ["c"]) ∧
    (argsFoo.encoder_type ≠ "LASER" ∧ argsFoo.encoder_type ≠ "LSI" ∧
      (encode_text extOk argsFoo ["c"]).result =
        Except.error (Err.nameError "encoded_comments")) :=
  ⟨⟨rfl, (encode_text_two_encoders extOk argsS ["c"]).1 rfl⟩,
   ⟨rfl, (encode_text_two_encoders extOk argsLsi ["c"]).2.1 rfl⟩,
   ⟨by decide, by decide,
    (encode_text_two_encoders extOk argsFoo ["c"]).2.2 (by decide) (by decide)⟩⟩

/-- C4: the pipeline steps run in the stated order: fit, then save the
model, then evaluate; and within `eval_model`, predicting, scoring and
reporting precede saving the predictions. -/
theorem pipeline_event_order (ops : ClfOps) (args : Args)
    (train_set test_set : Mat × List Bool) (tn : List String) (seed : Nat)
    (clf_name : String) (pfs : PklFS) (r : MakeResult)
    (h : make_classifier_and_predict ops args train_set test_set tn seed clf_name pfs =
      Except.ok r) :
    r.events = [Event.fitted, Event.savedModel] ++ r.evalr.events ∧
    r.evalr.events = [Event.predicted, Event.scored, Event.printedReport,
                      Event.rocComputed, Event.savedPredictions] := by
  unfold make_classifier_and_predict at h
  repeat' split at h
  all_goals first
    | (injection h with h; subst h; exact ⟨rfl, rfl⟩)
    | injection h

/-- Witness for C4 on a concrete random-forest run. -/
theorem pipeline_event_order_witness :
    make_classifier_and_predict opsS argsS (matA, [true, false]) (matB, [false, true])
        ["kept", "removed"] 0 "randomforest" [] =
      Except.ok
        { clf := fittedRF
          pfs := save_model argsS fittedRF []
          evalr := eval_model opsS fittedRF matB [false, true] ["kept", "removed"]
          events := [Event.fitted, Event.savedModel, Event.predicted, Event.scored,
                     Event.printedReport, Event.rocComputed, Event.savedPredictions] } ∧
    ({ clf := fittedRF
       pfs := save_model argsS fittedRF []
       evalr := eval_model opsS fittedRF matB [false, true] ["kept", "removed"]
       events := [Event.fitted, Event.savedModel, Event.predicted, Event.scored,
                  Event.printedReport, Event.rocComputed, Event.savedPredictions] } :
        MakeResult).events =
      [Event.fitted, Event.savedModel] ++
        ({ clf := fittedRF
           pfs := save_model argsS fittedRF []
           evalr := eval_model opsS fittedRF matB [false, true] ["kept", "removed"]
           events := [Event.fitted, Event.savedModel, Event.predicted, Event.scored,
                      Event.printedReport, Event.rocComputed, Event.savedPredictions] } :
            MakeResult).evalr.events :=
  ⟨rfl,
   (pipeline_event_order opsS argsS (matA, [true, false]) (matB, [false, true])
     ["kept", "removed"] 0 "randomforest" [] _ rfl).1⟩

/-- Cache file system holding both encoded matrices for `argsS`. -/
def fsBoth : NpyFS := [(trainMatPath argsS, matA), (testMatPath argsS, matB)]

/-- Cache file system holding only the training matrix for `argsS`. -/
def fsTrainOnly : NpyFS := [(trainMatPath argsS, matA)]

/-- Cache file system holding only the test matrix for `argsS`. -/
def fsTestOnly : NpyFS := [(testMatPath argsS, matB)]

/-- The two cache paths always differ: the file names start with
`training_` and `test_` respectively, so the strings have different
lengths. -/
theorem trainMatPath_ne_testMatPath (args : Args) :
    trainMatPath args ≠ testMatPath args := by
  intro h
  have hl := congrArg String.length h
  have h1 : ("training" : String).length = 8 := rfl
  have h2 : ("test" : String).length = 4 := rfl
  simp only [trainMatPath, testMatPath, String.length_append, h1, h2] at hl
  omega

/-- C1: when both cache files exist, `encode_or_load_data` performs no
encoding at all and returns the train and test input matrices loaded
from those two files, leaving the file system unchanged. -/
theorem cache_hit_loads_without_encoding (ext : ExtEncoders) (args : Args)
    (dl : DataLoader) (fs : NpyFS) (a b : Mat)
    (ha : lookupFile fs (trainMatPath args) = some a)
    (hb : lookupFile fs (testMatPath args) = some b) :
    encode_or_load_data ext args dl fs =
      Except.ok
        { trainInputs := EncVal.mat a
          trainOutputs := dl.removedTrain
          testInputs := EncVal.mat b
          testOutputs := dl.removedTest
          fs := fs
          encodeTrainCalls := 0
          encodeTestCalls := 0
          loadCalls := 1
          log := ["Loading train & test inputs from file",
                  "Loading encoded training matrix from: " ++ trainMatPath args,
                  "Loading encoded test matrix from: " ++ testMatPath args] } := by
  simp [encode_or_load_data, load_encoded_inputs, np_load, ha, hb]

/-- Witness for C1 on a concrete two-file cache. -/
theorem cache_hit_loads_without_encoding_witness :
    lookupFile fsBoth (trainMatPath argsS) = some matA ∧
    lookupFile fsBoth (testMatPath argsS) = some matB ∧
    encode_or_load_data extOk argsS dlS fsBoth =
      Except.ok
        { trainInputs := EncVal.mat matA
          trainOutputs := dlS.removedTrain
          testInputs := EncVal.mat matB
          testOutputs := dlS.removedTest
          fs := fsBoth
          encodeTrainCalls := 0
          encodeTestCalls := 0
          loadCalls := 1
          log := ["Loading train & test inputs from file",
                  "Loading encoded training matrix from: " ++ trainMatPath argsS,
                  "Loading encoded test matrix from: " ++ testMatPath argsS] } :=
  ⟨rfl, rfl,
   cache_hit_loads_without_encoding extOk argsS dlS fsBoth matA matB rfl rfl⟩

/-- C8: when exactly one cache file exists, `encode_or_load_data`
encodes (and, on success, saves) only the missing split and never calls
`load_encoded_inputs`; the returned value for the split whose file
exists is the initial Python empty list, not the cached matrix. -/
theorem cache_partial_encodes_only_missing (ext : ExtEncoders) (args : Args)
    (dl : DataLoader) (fs : NpyFS) :
    (∀ a, lookupFile fs (trainMatPath args) = some a →
      lookupFile fs (testMatPath args) = none →
      encode_or_load_data ext args dl fs =
        Except.ok
          { trainInputs := EncVal.emptyList
            trainOutputs := dl.removedTrain
            testInputs := encodeStepVal (encode_text ext args dl.bodyTest)
            testOutputs := dl.removedTest
            fs := encodeStepFS (testMatPath args) (encode_text ext args dl.bodyTest) fs
            encodeTrainCalls := 0
            encodeTestCalls := 1
            loadCalls := 0
            log := encodeStepLog "Encoding test inputs"
              "Error while encoding test dataset"
              (encode_text ext args dl.bodyTest) }) ∧
    (∀ b, lookupFile fs (trainMatPath args) = none →
      lookupFile fs (testMatPath args) = some b →
      encode_or_load_data ext args dl fs =
        Except.ok
          { trainInputs := encodeStepVal (encode_text ext args dl.bodyTrain)
            trainOutputs := dl.removedTrain
            testInputs := EncVal.emptyList
            testOutputs := dl.removedTest
            fs := encodeStepFS (trainMatPath args) (encode_text ext args dl.bodyTrain) fs
            encodeTrainCalls := 1
            encodeTestCalls := 0
            loadCalls := 0
            log := encodeStepLog "Encoding train inputs"
              "Error while encoding train dataset"
              (encode_text ext args dl.bodyTrain) }) := by
  constructor
  · intro a ha hb
    simp only [encode_or_load_data, ha, hb]
    cases hr : (encode_text ext args dl.bodyTest).result <;>
      simp [hr, hb, encodeStepVal, encodeStepFS, encodeStepLog]
  · intro b ha hb
    simp only [encode_or_load_data, ha, hb]
    cases hr : (encode_text ext args dl.bodyTrain).result <;>
      simp [hr, encodeStepVal, encodeStepFS, encodeStepLog, lookupFile,
            trainMatPath_ne_testMatPath args, hb]

/-- Witness for C8: the train file cached and the test file missing,
and symmetrically, with both a succeeding and a failing encoder. -/
theorem cache_partial_encodes_only_missing_witness :
    (lookupFile fsTrainOnly (trainMatPath argsS) = some matA ∧
     lookupFile fsTrainOnly (testMatPath argsS) = none ∧
     encode_or_load_data extOk argsS dlS fsTrainOnly =
       Except.ok
         { trainInputs := EncVal.emptyList
           trainOutputs := dlS.removedTrain
           testInputs := encodeStepVal (encode_text extOk argsS dlS.bodyTest)
           testOutputs := dlS.removedTest
           fs := encodeStepFS (testMatPath argsS) (encode_text extOk argsS dlS.bodyTest)
             fsTrainOnly
           encodeTrainCalls := 0
           encodeTestCalls := 1
           loadCalls := 0
           log := encodeStepLog "Encoding test inputs"
             "Error while encoding test dataset"
             (encode_text extOk argsS dlS.bodyTest) }) ∧
    (lookupFile fsTestOnly (trainMatPath argsS) = none ∧
     lookupFile fsTestOnly (testMatPath argsS) = some matB ∧
     encode_or_load_data extFail argsS dlS fsTestOnly =
       Except.ok
         { trainInputs := encodeStepVal (encode_text extFail argsS dlS.bodyTrain)
           trainOutputs := dlS.removedTrain
           testInputs := EncVal.emptyList
           testOutputs := dlS.removedTest
           fs := encodeStepFS (trainMatPath argsS) (encode_text extFail argsS dlS.bodyTrain)
             fsTestOnly
           encodeTrainCalls := 1
           encodeTestCalls := 0
           loadCalls := 0
           log := encodeStepLog "Encoding train inputs"
             "Error while encoding train dataset"
             (encode_text extFail argsS dlS.bodyTrain) }) :=
  ⟨⟨rfl, rfl,
    (cache_partial_encodes_only_missing extOk argsS dlS fsTrainOnly).1 matA rfl rfl⟩,
   ⟨rfl, rfl,
    (cache_partial_encodes_only_missing extFail argsS dlS fsTestOnly).2 matB rfl rfl⟩⟩

/-- C2: `encode_text` logs and re-raises encoding exceptions; its caller
`encode_or_load_data` catches and logs them and continues, returning the
uninitialized empty-list inputs instead of propagating the failure; and
`load_encoded_inputs` swallows load errors and returns `None`. -/
theorem encoding_errors_swallowed (ext : ExtEncoders) (args : Args)
    (dl : DataLoader) (fs : NpyFS) :
    (∀ comments e, encode_dispatch ext args comments = Except.error e →
      encode_text ext args comments =
        { result := Except.error e, log := ["Error while encoding inputs!"] }) ∧
    (∀ e1 e2,
      lookupFile fs (trainMatPath args) = none →
      lookupFile fs (testMatPath args) = none →
      (encode_text ext args dl.bodyTrain).result = Except.error e1 →
      (encode_text ext args dl.bodyTest).result = Except.error e2 →
      encode_or_load_data ext args dl fs =
        Except.ok
          { trainInputs := EncVal.emptyList
            trainOutputs := dl.removedTrain
            testInputs := EncVal.emptyList
            testOutputs := dl.removedTest
            fs := fs
            encodeTrainCalls := 1
            encodeTestCalls := 1
            loadCalls := 0
            log := ("Encoding train inputs" :: (encode_text ext args dl.bodyTrain).log ++
                     ["Error while encoding train dataset"]) ++
                   ("Encoding test inputs" :: (encode_text ext args dl.bodyTest).log ++
                     ["Error while encoding test dataset"]) }) ∧
    (∀ p q, lookupFile fs p = none → (load_encoded_inputs fs p q).result = none) := by
  refine ⟨fun comments e hd => ?_, fun e1 e2 h1 h2 hr1 hr2 => ?_, fun p q hp => ?_⟩
  · simp [encode_text, hd]
  · simp [encode_or_load_data, h1, h2, hr1, hr2]
  · simp [load_encoded_inputs, np_load, hp]

/-- Witness for C2 with an always-failing encoder and an empty cache. -/
theorem encoding_errors_swallowed_witness :
    (encode_dispatch extFail argsS dlS.bodyTrain =
        Except.error (Err.encodeError "laser failed") ∧
      encode_text extFail argsS dlS.bodyTrain =
        { result := Except.error (Err.encodeError "laser failed")
          log := ["Error while encoding inputs!"] }) ∧
    (lookupFile ([] : NpyFS) (trainMatPath argsS) = none ∧
      lookupFile ([] : NpyFS) (testMatPath argsS) = none ∧
      (encode_text extFail argsS dlS.bodyTrain).result =
        Except.error (Err.encodeError "laser failed") ∧
      (encode_text extFail argsS dlS.bodyTest).result =
        Except.error (Err.encodeError "laser failed") ∧
      encode_or_load_data extFail argsS dlS [] =
        Except.ok
          { trainInputs := EncVal.emptyList
            trainOutputs := dlS.removedTrain
            testInputs := EncVal.emptyList
            testOutputs := dlS.removedTest
            fs := []
            encodeTrainCalls := 1
            encodeTestCalls := 1
            loadCalls := 0
            log := ("Encoding train inputs" :: (encode_text extFail argsS dlS.bodyTrain).log ++
                     ["Error while encoding train dataset"]) ++
                   ("Encoding test inputs" :: (encode_text extFail argsS dlS.bodyTest).log ++
                     ["Error while encoding test dataset"]) }) ∧
    (lookupFile ([] : NpyFS) (trainMatPath argsS) = none ∧
      (load_encoded_inputs ([] : NpyFS) (trainMatPath argsS) (testMatPath argsS)).result =
        none) :=
  ⟨⟨rfl, (encoding_errors_swallowed extFail argsS dlS []).1 dlS.bodyTrain
      (Err.encodeError "laser failed") rfl⟩,
   ⟨rfl, rfl, rfl, rfl,
    (encoding_errors_swallowed extFail argsS dlS []).2.1
      (Err.encodeError "laser failed") (Err.encodeError "laser failed") rfl rfl rfl rfl⟩,
   ⟨rfl, (encoding_errors_swallowed extFail argsS dlS []).2.2
      (trainMatPath argsS) (testMatPath argsS) rfl⟩⟩

/-- C6 counterexample: `load_encoded_inputs` can return matrices whose
widths are not 1024 and do not even agree between train and test; the
code checks no shapes. -/
theorem load_encoded_inputs_shape_counterexample :
    (load_encoded_inputs [("wd/a.npy", matA), ("wd/b.npy", matB)]
        "wd/a.npy" "wd/b.npy").result = some (matA, matB) ∧
    matA.cols ≠ 1024 ∧ matA.cols ≠ matB.cols :=
  ⟨rfl, by decide, by decide⟩

/-- C6 amended: `load_encoded_inputs` returns exactly the matrices
stored in the two files, unchanged and with whatever shapes they have;
no 1024-width or width-agreement invariant is checked or enforced. -/
theorem load_encoded_inputs_returns_stored (fs : NpyFS) (p q : String) (a b : Mat)
    (hp : lookupFile fs p = some a) (hq : lookupFile fs q = some b) :
    (load_encoded_inputs fs p q).result = some (a, b) := by
  simp [load_encoded_inputs, np_load, hp, hq]

/-- Witness for the amended C6 on a concrete cache. -/
theorem load_encoded_inputs_returns_stored_witness :
    lookupFile fsBoth (trainMatPath argsS) = some matA ∧
    lookupFile fsBoth (testMatPath argsS) = some matB ∧
    (load_encoded_inputs fsBoth (trainMatPath argsS) (testMatPath argsS)).result =
      some (matA, matB) :=
  ⟨rfl, rfl,
   load_encoded_inputs_returns_stored fsBoth (trainMatPath argsS) (testMatPath argsS)
     matA matB rfl rfl⟩

/-- C7 (code bug): on a concrete gold file and predictions,
`save_predictions` does write a tab-separated file to
`args.predictions_file` with one row per gold entry and the row index
under the label `ID`, but the lines written are exactly the gold rows:
the predictions never reach the file (the chained
`pred.iloc[i]['Prediction'] = y_lbl` mutates only a temporary row copy),
so the output is independent of `y_pred`. -/
theorem save_predictions_drops_predictions :
    save_predictions argsS [true, false] [⟨"a", false⟩, ⟨"b", true⟩] [] =
      Except.ok [("preds.tsv",
        ["ID\tBODY\tREMOVED", "0\ta\tFalse", "1\tb\tTrue"])] ∧
    save_predictions argsS [true, false] [⟨"a", false⟩, ⟨"b", true⟩] [] =
      save_predictions argsS [false, true] [⟨"a", false⟩, ⟨"b", true⟩] [] :=
  ⟨rfl, rfl⟩

end CommentRemoval
